import Mathlib

/-!
Shallow embedding of the catch-all probing engine of
`src/email_checker_app.py` (functions `is_catch_all`, `has_mx_record`,
`check_email`, and the static domain lists), together with proofs of the
specification's claims about it.

The network is modelled as a deterministic oracle (`NetEnv`): `mx` gives the
outcome of `dns.resolver.resolve(domain, 'MX')` (`none` = the call raised) and
`smtp` gives the outcome of the SMTP conversation (connect/helo/mail/rcpt)
against a given mail server for a given domain (`SMTPOutcome.exc` = some step
raised; `SMTPOutcome.code c` = the rcpt command returned response code `c`).
The process-wide mutable cache `checked_domains` and the observable network
activity are threaded explicitly as a `CheckerState`; the state records, for
instrumentation, the list of MX resolutions performed, the list of SMTP
conversations opened, and the list of uncached probe-body executions.
-/

namespace EmailChecker

/-- Python's `str.strip()` (no argument): removes leading and trailing
whitespace. Used at src line 73 (`email.strip()`). -/
def pyStrip (s : String) : String :=
  String.mk (((s.data.dropWhile Char.isWhitespace).reverse.dropWhile
    Char.isWhitespace).reverse)

/-- Python's `str.replace(';', '')` at src line 73: removes every `;`. -/
def removeSemicolons (s : String) : String :=
  String.mk (s.data.filter (fun c => c != ';'))

/-- The cleaning applied at src line 73: `email.strip().replace(';', '')`. -/
def cleanEmail (s : String) : String :=
  removeSemicolons (pyStrip s)

/-- Python's `str.lower()` at src line 82. -/
def lowerString (s : String) : String :=
  String.mk (s.data.map Char.toLower)

/-- Python's `str.strip('.')` at src line 23: removes leading and trailing
`.` characters from the exchange host name. -/
def stripDots (s : String) : String :=
  String.mk (((s.data.dropWhile (fun c => c == '.')).reverse.dropWhile
    (fun c => c == '.')).reverse)

/-- Splitting a character list at every occurrence of `sep` (the separator is
dropped; empty pieces are kept), as Python's `str.split(sep)`. -/
def splitOnChar (sep : Char) : List Char → List (List Char)
  | [] => [[]]
  | c :: cs =>
    let rest := splitOnChar sep cs
    if c = sep then [] :: rest
    else
      match rest with
      | [] => [[c]]
      | r :: rs => (c :: r) :: rs

/-- Characters the modelled validator accepts in a local part. -/
def isLocalChar (c : Char) : Bool :=
  c.isAlphanum || c == '.' || c == '_' || c == '-' || c == '+'

/-- Characters the modelled validator accepts inside a domain label. -/
def isDomainChar (c : Char) : Bool :=
  c.isAlphanum || c == '-'

/-- A domain label is non-empty and made of letters, digits and hyphens. -/
def validLabel (l : List Char) : Bool :=
  !l.isEmpty && l.all isDomainChar

/-- Basic label/TLD shape check for the domain part: at least two dot-separated
labels, every label valid, and the final label (the TLD) alphabetic of length
at least two. -/
def validDomainShape (d : List Char) : Bool :=
  let labels := splitOnChar '.' d
  decide (2 ≤ labels.length) && labels.all validLabel &&
    (labels.getLastD []).all Char.isAlpha &&
    decide (2 ≤ (labels.getLastD []).length)

/-- Modelled from the spec: the Syntax Validator — `validate_email` from the
external `email_validator` library (called at src line 81 with
`check_deliverability=False`; the library itself is not part of src/). Per
spec §4.1 it fails when the string does not contain exactly one `@`, when
either side is empty, or when the domain part fails a basic label/TLD shape
check (a conservative RFC-5322-lite grammar); on success it yields the local
part and the domain. Deliverability is not checked here. -/
def validate_email (s : String) : Option (String × String) :=
  match splitOnChar '@' s.data with
  | [l, d] =>
    if !l.isEmpty && l.all isLocalChar && validDomainShape d then
      some (String.mk l, String.mk d)
    else
      none
  | _ => none

/-- An MX record as returned by the resolver: a preference value and an
exchange host name (possibly with a trailing dot). -/
structure MXRecord where
  preference : Nat
  exchange : String
deriving DecidableEq

/-- Outcome of the SMTP conversation (connect, helo, mail, rcpt) against a
mail server: either some step raised an exception, or the rcpt command
returned a response code. -/
inductive SMTPOutcome where
  | exc : SMTPOutcome
  | code : Nat → SMTPOutcome
deriving DecidableEq

/-- The deterministic network oracle for one run: `mx domain` is the result of
`dns.resolver.resolve(domain, 'MX')` (`none` when the call raises, `some l`
when it returns the record list `l` in resolver-returned order), and
`smtp server domain` is the outcome of the probe conversation with `server`
about a recipient at `domain`. -/
structure NetEnv where
  mx : String → Option (List MXRecord)
  smtp : String → String → SMTPOutcome

/-- The values `is_catch_all` stores and returns: the Python string `'maybe'`,
Python `False`, or Python `True` (the last never produced by the code, but
present in the value space tested by the truthiness branch at src line 97). -/
inductive ProbeVal where
  | maybe : ProbeVal
  | pyFalse : ProbeVal
  | pyTrue : ProbeVal
deriving DecidableEq

/-- Python truthiness of a `ProbeVal`: the non-empty string `'maybe'` and
`True` are truthy, `False` is falsy (src line 97, `elif is_catch_all(domain):`). -/
def truthy : ProbeVal → Bool
  | ProbeVal.maybe => true
  | ProbeVal.pyFalse => false
  | ProbeVal.pyTrue => true

/-- The run state: the `checked_domains` cache (src line 11) plus
instrumentation logs — `mxQueries` records every `dns.resolver.resolve`
MX query issued, `smtpProbes` every SMTP conversation opened, and `probes`
every execution of the uncached probe body of `is_catch_all`. -/
structure CheckerState where
  cache : List (String × ProbeVal)
  mxQueries : List String
  smtpProbes : List String
  probes : List String
deriving DecidableEq

/-- The state at process start: empty cache, nothing probed yet. -/
def initState : CheckerState :=
  ⟨[], [], [], []⟩

/-- The uncached body of `is_catch_all` (src lines 17–45): resolve MX records
(any exception ⇒ `False`); an empty record list ⇒ `False`; otherwise contact
`str(mx_records[0].exchange).strip('.')` — the first record in
resolver-returned order — and classify the rcpt response: any exception during
connect/helo/mail/rcpt ⇒ `False`; code 250 ⇒ `'maybe'`; code 550 ⇒ `False`;
any other code ⇒ `False`. -/
def probeDomain (env : NetEnv) (domain : String) : ProbeVal :=
  match env.mx domain with
  | none => ProbeVal.pyFalse
  | some [] => ProbeVal.pyFalse
  | some (r :: _) =>
    match env.smtp (stripDots r.exchange) domain with
    | SMTPOutcome.exc => ProbeVal.pyFalse
    | SMTPOutcome.code c =>
      if c = 250 then ProbeVal.maybe
      else if c = 550 then ProbeVal.pyFalse
      else ProbeVal.pyFalse

/-- Whether the uncached body of `is_catch_all` opens an SMTP conversation:
it does exactly when the MX resolution succeeds with a non-empty record list
(src lines 25–32, reached only past the guards at lines 17–21). -/
def probeOpensSMTP (env : NetEnv) (domain : String) : Bool :=
  match env.mx domain with
  | some (_ :: _) => true
  | _ => false

/-- Translation of `is_catch_all` (src lines 13–48): return the cached value when the domain
was already checked; otherwise run the probe body once, cache its result
under the domain and return it. The instrumentation logs grow accordingly. -/
def is_catch_all (env : NetEnv) (st : CheckerState) (domain : String) :
    ProbeVal × CheckerState :=
  match List.lookup domain st.cache with
  | some v => (v, st)
  | none =>
    let result := probeDomain env domain
    (result,
      ⟨(domain, result) :: st.cache,
       domain :: st.mxQueries,
       if probeOpensSMTP env domain then domain :: st.smtpProbes
       else st.smtpProbes,
       domain :: st.probes⟩)

/-- The static disposable-domain set (src line 62). -/
def DISPOSABLE_DOMAINS : List String :=
  ["mailinator.com", "10minutemail.com", "tempmail.com", "yopmail.com"]

/-- The static known-typo domain set (src line 63). -/
def TYPO_DOMAINS : List String :=
  ["gamil.com", "yaho.com", "hotnail.com"]

/-- Translation of `has_mx_record` (src lines 65–70): try to resolve MX records and return
`True`; any exception ⇒ `False`. The MX query is logged. -/
def has_mx_record (env : NetEnv) (st : CheckerState) (domain : String) :
    Bool × CheckerState :=
  ((env.mx domain).isSome,
    ⟨st.cache, domain :: st.mxQueries, st.smtpProbes, st.probes⟩)

/-- A per-address verdict (the dict built by `check_email`, src lines 74–78). -/
structure EmailResult where
  email : String
  validation_status : String
  validation_analysis : String
deriving DecidableEq

/-- Translation of `check_email` (src lines 72–104). Here `typos` models the process-wide static
binding `TYPO_DOMAINS` (src line 63), which the function body never reads.
The input is cleaned (strip, then remove `;`), validated, and the verdict is
composed in source order: invalid syntax, then no MX record, then disposable
(membership of the lower-cased domain), then `is_catch_all(domain) == 'maybe'`,
then the truthiness of a second `is_catch_all(domain)` call, else accepted. -/
def check_email (typos : List String) (env : NetEnv) (st : CheckerState)
    (email : String) : EmailResult × CheckerState :=
  let email := cleanEmail email
  match validate_email email with
  | none => (⟨email, "Do Not Send", "Invalid Syntax"⟩, st)
  | some (_, dom) =>
    let domain := lowerString dom
    let h := has_mx_record env st domain
    if !h.1 then (⟨email, "Do Not Send", "No MX"⟩, h.2)
    else if DISPOSABLE_DOMAINS.contains domain then
      (⟨email, "Do Not Send", "Disposable"⟩, h.2)
    else
      let p1 := is_catch_all env h.2 domain
      if p1.1 = ProbeVal.maybe then
        (⟨email, "Do Not Send", "Catch-All"⟩, p1.2)
      else
        let p2 := is_catch_all env p1.2 domain
        if truthy p2.1 then
          (⟨email, "Do Not Send", "Catch-All"⟩, p2.2)
        else
          (⟨email, "Okay to Send", "Accepted"⟩, p2.2)

/-- The mail server the prober contacts for a domain, read off src line 23:
`str(mx_records[0].exchange).strip('.')` — the exchange of the first record in
resolver-returned order, with surrounding dots stripped; no server when the
resolution raises or returns no records. -/
def contactedServer (env : NetEnv) (domain : String) : Option String :=
  match env.mx domain with
  | some (r :: _) => some (stripDots r.exchange)
  | _ => none

/-- Modelled from the spec (§4.3): the returned record with the lowest
preference value, ties broken by resolver-returned order. Written from the
spec's words, for comparison with the source's selection. -/
def lowestPrefRecord : List MXRecord → Option MXRecord
  | [] => none
  | r :: rs =>
    match lowestPrefRecord rs with
    | none => some r
    | some b => if r.preference ≤ b.preference then some r else some b

/-- Modelled from the spec (§4.3): the server the prober would contact if it
selected the lowest-preference record as the spec describes. -/
def specContactedServer (env : NetEnv) (domain : String) : Option String :=
  match env.mx domain with
  | some l => (lowestPrefRecord l).map (fun r => stripDots r.exchange)
  | none => none

/-- The rcpt response code the probe of a domain observes, when the MX
resolution succeeds with records and the SMTP conversation reaches the rcpt
command without raising. -/
def rcptCode (env : NetEnv) (domain : String) : Option Nat :=
  match env.mx domain with
  | some (r :: _) =>
    match env.smtp (stripDots r.exchange) domain with
    | SMTPOutcome.code c => some c
    | SMTPOutcome.exc => none
  | _ => none

/-- The (lower-cased) domain `check_email` extracts from an input string, when
validation succeeds. -/
def emailDomain (e : String) : Option String :=
  match validate_email (cleanEmail e) with
  | some (_, dom) => some (lowerString dom)
  | none => none

/-- A run state is consistent with the network oracle when every cached value
is the value the probe body computes for that domain. The initial state is
consistent (empty cache), and every step of the checker preserves this, the
oracle being deterministic within a run. -/
def Consistent (env : NetEnv) (st : CheckerState) : Prop :=
  ∀ d v, List.lookup d st.cache = some v → v = probeDomain env d

/-- A test environment with a single MX record for one domain and a fixed
outcome for every SMTP conversation. -/
def oneMxEnv (domain mxHost : String) (out : SMTPOutcome) : NetEnv :=
  ⟨fun d => if d = domain then some [⟨10, mxHost⟩] else none,
   fun _ _ => out⟩

/-- A test environment for the MX-selection claims: the resolver returns two
records for `mixed.test`, first a preference-20 record and then a
preference-10 record; the preference-10 server rejects unknown recipients
(code 550) while the preference-20 server accepts everything (code 250). -/
def envMixed : NetEnv :=
  ⟨fun d => if d = "mixed.test" then
      some [⟨20, "slow.example."⟩, ⟨10, "fast.example."⟩]
    else none,
   fun s _ => if s = "fast.example" then SMTPOutcome.code 550
    else SMTPOutcome.code 250⟩

/-! ## Helper lemmas -/

theorem consistent_initState (env : NetEnv) : Consistent env initState := by
  intro d v h
  simp [initState, List.lookup] at h

/-- When every cached value for `d` agrees with the probe body, `is_catch_all`
returns exactly the probe body's value for `d` (cached or not). -/
theorem is_catch_all_fst (env : NetEnv) (st : CheckerState) (d : String)
    (hc : ∀ v, List.lookup d st.cache = some v → v = probeDomain env d) :
    (is_catch_all env st d).1 = probeDomain env d := by
  unfold is_catch_all
  cases h : List.lookup d st.cache with
  | none => rfl
  | some v => exact hc v h

/-- After a call of `is_catch_all` on `d`, the cache holds the probe body's
value for `d` (given it held nothing else before). -/
theorem is_catch_all_lookup_self (env : NetEnv) (st : CheckerState) (d : String)
    (hc : ∀ v, List.lookup d st.cache = some v → v = probeDomain env d) :
    List.lookup d (is_catch_all env st d).2.cache = some (probeDomain env d) := by
  unfold is_catch_all
  cases h : List.lookup d st.cache with
  | none => simp [List.lookup]
  | some v => exact h.trans (congrArg some (hc v h))

/-- An existing cache entry survives any later `is_catch_all` call: entries
are never invalidated or overwritten. -/
theorem is_catch_all_preserves_lookup (env : NetEnv) (st : CheckerState)
    (d e : String) (v : ProbeVal) (h : List.lookup e st.cache = some v) :
    List.lookup e (is_catch_all env st d).2.cache = some v := by
  unfold is_catch_all
  cases hd : List.lookup d st.cache with
  | some w => simpa using h
  | none =>
    simp only [List.lookup]
    cases hbeq : e == d with
    | true =>
      have : e = d := eq_of_beq hbeq
      rw [this] at h
      rw [h] at hd
      exact Option.noConfusion hd
    | false => simpa [hbeq] using h

/-- Helper: `is_catch_all` preserves consistency of the state with the oracle. -/
theorem is_catch_all_preserves_consistent (env : NetEnv) (st : CheckerState)
    (d : String) (hc : Consistent env st) :
    Consistent env (is_catch_all env st d).2 := by
  intro e v h
  unfold is_catch_all at h
  cases hd : List.lookup d st.cache with
  | some w => rw [hd] at h; exact hc e v h
  | none =>
    rw [hd] at h
    simp only [List.lookup] at h
    cases hbeq : e == d with
    | true =>
      rw [hbeq] at h
      simp at h
      rw [eq_of_beq hbeq]
      exact h.symm
    | false =>
      rw [hbeq] at h
      simp at h
      exact hc e v h

/-- The probe body never produces Python `True`. -/
theorem probeDomain_ne_pyTrue (env : NetEnv) (d : String) :
    probeDomain env d ≠ ProbeVal.pyTrue := by
  unfold probeDomain
  cases h : env.mx d with
  | none => simp
  | some l =>
    cases l with
    | nil => simp
    | cons r rs =>
      cases hs : env.smtp (stripDots r.exchange) d with
      | exc => simp [hs]
      | code c =>
        by_cases h250 : c = 250 <;> simp [hs, h250]

/-- The probe body yields `'maybe'` exactly when the rcpt command answered
with response code 250. -/
theorem probeDomain_eq_maybe_iff (env : NetEnv) (d : String) :
    probeDomain env d = ProbeVal.maybe ↔ rcptCode env d = some 250 := by
  unfold probeDomain rcptCode
  cases h : env.mx d with
  | none => simp
  | some l =>
    cases l with
    | nil => simp
    | cons r rs =>
      cases hs : env.smtp (stripDots r.exchange) d with
      | exc => simp [hs]
      | code c =>
        by_cases h250 : c = 250 <;> simp [hs, h250]

/-- Branch lemma: validation failure takes the first arm of `check_email` and
leaves the state untouched. -/
theorem check_email_invalid (t : List String) (env : NetEnv)
    (st : CheckerState) (e : String)
    (hv : validate_email (cleanEmail e) = none) :
    check_email t env st e =
      (⟨cleanEmail e, "Do Not Send", "Invalid Syntax"⟩, st) := by
  simp only [check_email, hv]

/-- Branch lemma: an MX resolution failure takes the `No MX` arm; only the MX
query log changes. -/
theorem check_email_no_mx (t : List String) (env : NetEnv) (st : CheckerState)
    (e l dom : String)
    (hv : validate_email (cleanEmail e) = some (l, dom))
    (hmx : env.mx (lowerString dom) = none) :
    check_email t env st e =
      (⟨cleanEmail e, "Do Not Send", "No MX"⟩,
       ⟨st.cache, lowerString dom :: st.mxQueries, st.smtpProbes,
        st.probes⟩) := by
  simp only [check_email, hv, has_mx_record, hmx, Option.isSome_none,
    Bool.not_false, if_true]

/-- Branch lemma: a disposable domain with a resolvable exchange takes the
`Disposable` arm; only the MX query log changes. -/
theorem check_email_disposable (t : List String) (env : NetEnv)
    (st : CheckerState) (e l dom : String)
    (hv : validate_email (cleanEmail e) = some (l, dom))
    (hmx : (env.mx (lowerString dom)).isSome = true)
    (hd : DISPOSABLE_DOMAINS.contains (lowerString dom) = true) :
    check_email t env st e =
      (⟨cleanEmail e, "Do Not Send", "Disposable"⟩,
       ⟨st.cache, lowerString dom :: st.mxQueries, st.smtpProbes,
        st.probes⟩) := by
  simp only [check_email, hv, has_mx_record, hmx, hd, Bool.not_true,
    Bool.false_eq_true, if_false, if_true]

/-- Branch lemma: past the syntax, MX and disposable guards, the verdict is
decided by the probe body's value for the domain — `'maybe'` gives
`Catch-All`, anything else gives `Accepted` (the probe body never returns
`True`, so the truthiness branch never fires). -/
theorem check_email_probe_path (t : List String) (env : NetEnv)
    (st : CheckerState) (e l dom : String) (hc : Consistent env st)
    (hv : validate_email (cleanEmail e) = some (l, dom))
    (hmx : (env.mx (lowerString dom)).isSome = true)
    (hd : DISPOSABLE_DOMAINS.contains (lowerString dom) = false) :
    (check_email t env st e).1 =
      if probeDomain env (lowerString dom) = ProbeVal.maybe then
        ⟨cleanEmail e, "Do Not Send", "Catch-All"⟩
      else ⟨cleanEmail e, "Okay to Send", "Accepted"⟩ := by
  have hcons1 : ∀ v, List.lookup (lowerString dom)
      (⟨st.cache, lowerString dom :: st.mxQueries, st.smtpProbes,
        st.probes⟩ : CheckerState).cache = some v →
      v = probeDomain env (lowerString dom) :=
    fun v h => hc _ v h
  have hfst1 := is_catch_all_fst env
    ⟨st.cache, lowerString dom :: st.mxQueries, st.smtpProbes, st.probes⟩
    (lowerString dom) hcons1
  have hself := is_catch_all_lookup_self env
    ⟨st.cache, lowerString dom :: st.mxQueries, st.smtpProbes, st.probes⟩
    (lowerString dom) hcons1
  have hfst2 := is_catch_all_fst env
    (is_catch_all env
      ⟨st.cache, lowerString dom :: st.mxQueries, st.smtpProbes, st.probes⟩
      (lowerString dom)).2
    (lowerString dom)
    (fun v h => (Option.some.inj (hself.symm.trans h)).symm)
  simp only [check_email, hv, has_mx_record, hmx, hd, Bool.not_true,
    Bool.false_eq_true, if_false, if_true, hfst1, hfst2]
  by_cases hp : probeDomain env (lowerString dom) = ProbeVal.maybe
  · simp [hp]
  · have hpf : probeDomain env (lowerString dom) = ProbeVal.pyFalse := by
      cases hval : probeDomain env (lowerString dom) with
      | maybe => exact absurd hval hp
      | pyFalse => rfl
      | pyTrue => exact absurd hval (probeDomain_ne_pyTrue env (lowerString dom))
    simp [hp, hpf, truthy]

/-- Helper: with a cache hit, `is_catch_all` returns the cached value and
leaves the state untouched. -/
theorem is_catch_all_cached (env : NetEnv) (st : CheckerState) (d : String)
    (v : ProbeVal) (h : List.lookup d st.cache = some v) :
    is_catch_all env st d = (v, st) := by
  unfold is_catch_all
  rw [h]

/-- Helper: with a cache miss, `is_catch_all` runs the probe body, logs it and
caches its result. -/
theorem is_catch_all_uncached (env : NetEnv) (st : CheckerState) (d : String)
    (h : List.lookup d st.cache = none) :
    is_catch_all env st d =
      (probeDomain env d,
       ⟨(d, probeDomain env d) :: st.cache, d :: st.mxQueries,
        if probeOpensSMTP env d then d :: st.smtpProbes else st.smtpProbes,
        d :: st.probes⟩) := by
  unfold is_catch_all
  rw [h]

/-- Helper: every cache entry survives a `check_email` call. -/
theorem check_email_preserves_lookup (t : List String) (env : NetEnv)
    (st : CheckerState) (a e : String) (v : ProbeVal)
    (h : List.lookup e st.cache = some v) :
    List.lookup e (check_email t env st a).2.cache = some v := by
  cases hval : validate_email (cleanEmail a) with
  | none => rw [check_email_invalid t env st a hval]; exact h
  | some p =>
    obtain ⟨l, dom⟩ := p
    cases hmx : env.mx (lowerString dom) with
    | none => rw [check_email_no_mx t env st a l dom hval hmx]; exact h
    | some recs =>
      have hmxs : (env.mx (lowerString dom)).isSome = true := by
        rw [hmx]; rfl
      by_cases hd : DISPOSABLE_DOMAINS.contains (lowerString dom) = true
      · rw [check_email_disposable t env st a l dom hval hmxs hd]; exact h
      · have hd2 : DISPOSABLE_DOMAINS.contains (lowerString dom) = false := by
          simpa using hd
        simp only [check_email, hval, has_mx_record, hmxs, hd2, Bool.not_true,
          Bool.false_eq_true, if_false, if_true]
        split
        · exact is_catch_all_preserves_lookup env _ _ e v h
        · split
          · exact is_catch_all_preserves_lookup env _ _ e v
              (is_catch_all_preserves_lookup env _ _ e v h)
          · exact is_catch_all_preserves_lookup env _ _ e v
              (is_catch_all_preserves_lookup env _ _ e v h)

/-- Helper: splitting a list that does not contain the separator gives back
the whole list as the only piece. -/
theorem splitOnChar_eq_single (sep : Char) (l : List Char) (h : sep ∉ l) :
    splitOnChar sep l = [l] := by
  induction l with
  | nil => rfl
  | cons c cs ih =>
    have h1 : ¬ c = sep := by
      intro hh
      exact h (by rw [hh]; exact List.mem_cons_self _ _)
    have h2 : sep ∉ cs := fun hh => h (List.mem_cons_of_mem _ hh)
    unfold splitOnChar
    rw [ih h2]
    simp [h1]

/-- Helper: the modelled validator rejects a string without `@`, with an
empty local part, or with an empty domain part. -/
theorem validate_email_eq_none (s : String)
    (h : ('@' ∉ s.data) ∨
      (∃ d, splitOnChar '@' s.data = [[], d]) ∨
      (∃ l, splitOnChar '@' s.data = [l, []])) :
    validate_email s = none := by
  rcases h with h | ⟨d, hd⟩ | ⟨l, hl⟩
  · rw [validate_email, splitOnChar_eq_single '@' s.data h]
  · rw [validate_email, hd]
    simp
  · rw [validate_email, hl]
    simp [validDomainShape, splitOnChar]

/-! ## The claims -/

/-- C9: the known-typo domain set is never consulted in the verdict decision
order — two runs of `check_email` that differ only in the `TYPO_DOMAINS`
static data produce identical verdicts and identical states for every input
address, network oracle and starting state. -/
theorem typo_domains_never_consulted (t1 t2 : List String) (env : NetEnv)
    (st : CheckerState) (e : String) :
    check_email t1 env st e = check_email t2 env st e := rfl

/-- C10: `is_catch_all` only ever returns `'maybe'` or `False`, never `True`;
hence the truthiness branch at src line 97 (the second catch-all test) can
never fire, and an address receives the `Catch-All` verdict only when the
SMTP rcpt command for its domain answered with response code exactly 250. -/
theorem is_catch_all_never_true (env : NetEnv) (st : CheckerState)
    (hc : Consistent env st) :
    (∀ d, (is_catch_all env st d).1 ≠ ProbeVal.pyTrue) ∧
    (∀ d, (is_catch_all env st d).1 ≠ ProbeVal.maybe →
      truthy (is_catch_all env st d).1 = false) ∧
    (∀ t e, (check_email t env st e).1.validation_analysis = "Catch-All" →
      ∃ d, emailDomain e = some d ∧ rcptCode env d = some 250) := by
  refine ⟨fun d => ?_, fun d hnm => ?_, fun t e hca => ?_⟩
  · rw [is_catch_all_fst env st d (fun v h => hc d v h)]
    exact probeDomain_ne_pyTrue env d
  · rw [is_catch_all_fst env st d (fun v h => hc d v h)] at hnm ⊢
    cases hval : probeDomain env d with
    | maybe => exact absurd hval hnm
    | pyFalse => rfl
    | pyTrue => exact absurd hval (probeDomain_ne_pyTrue env d)
  · cases hval : validate_email (cleanEmail e) with
    | none =>
      rw [check_email_invalid t env st e hval] at hca
      simp at hca
    | some p =>
      obtain ⟨l, dom⟩ := p
      cases hmx : env.mx (lowerString dom) with
      | none =>
        rw [check_email_no_mx t env st e l dom hval hmx] at hca
        simp at hca
      | some recs =>
        have hmxs : (env.mx (lowerString dom)).isSome = true := by
          rw [hmx]; rfl
        by_cases hd : DISPOSABLE_DOMAINS.contains (lowerString dom) = true
        · rw [check_email_disposable t env st e l dom hval hmxs hd] at hca
          simp at hca
        · have hd2 : DISPOSABLE_DOMAINS.contains (lowerString dom) = false := by
            simpa using hd
          rw [check_email_probe_path t env st e l dom hc hval hmxs hd2] at hca
          by_cases hp : probeDomain env (lowerString dom) = ProbeVal.maybe
          · refine ⟨lowerString dom, ?_, ?_⟩
            · simp [emailDomain, hval]
            · exact (probeDomain_eq_maybe_iff env (lowerString dom)).mp hp
          · rw [if_neg hp] at hca
            simp at hca

/-- C10 witness: the theorem applied to a concrete oracle and the initial
(empty, hence consistent) state. -/
theorem is_catch_all_never_true_witness :
    Consistent (oneMxEnv "example.com" "mx.example.com."
      (SMTPOutcome.code 250)) initState ∧
    ((∀ d, (is_catch_all (oneMxEnv "example.com" "mx.example.com."
        (SMTPOutcome.code 250)) initState d).1 ≠ ProbeVal.pyTrue) ∧
     (∀ d, (is_catch_all (oneMxEnv "example.com" "mx.example.com."
        (SMTPOutcome.code 250)) initState d).1 ≠ ProbeVal.maybe →
      truthy (is_catch_all (oneMxEnv "example.com" "mx.example.com."
        (SMTPOutcome.code 250)) initState d).1 = false) ∧
     (∀ t e, (check_email t (oneMxEnv "example.com" "mx.example.com."
        (SMTPOutcome.code 250)) initState e).1.validation_analysis =
          "Catch-All" →
      ∃ d, emailDomain e = some d ∧
        rcptCode (oneMxEnv "example.com" "mx.example.com."
          (SMTPOutcome.code 250)) d = some 250)) :=
  ⟨consistent_initState _,
   is_catch_all_never_true _ initState (consistent_initState _)⟩

/-- C4: probing a domain twice in one run runs the probe body exactly once
(the first call logs one probe execution, the second changes nothing), both
calls return the same value, and a cache entry, once present, survives every
later `is_catch_all` and `check_email` call of the run unchanged. -/
theorem cache_idempotence (env : NetEnv) (st : CheckerState) (d : String)
    (h : List.lookup d st.cache = none) :
    (is_catch_all env st d).1 =
      (is_catch_all env (is_catch_all env st d).2 d).1 ∧
    (is_catch_all env st d).2.probes = d :: st.probes ∧
    (is_catch_all env (is_catch_all env st d).2 d).2 =
      (is_catch_all env st d).2 ∧
    (∀ st2 d2 e v, List.lookup e st2.cache = some v →
      List.lookup e (is_catch_all env st2 d2).2.cache = some v) ∧
    (∀ t st2 a e v, List.lookup e st2.cache = some v →
      List.lookup e (check_email t env st2 a).2.cache = some v) := by
  have hstep := is_catch_all_uncached env st d h
  have hlk : List.lookup d (is_catch_all env st d).2.cache =
      some (probeDomain env d) := by
    rw [hstep]
    simp [List.lookup]
  have hstep2 := is_catch_all_cached env (is_catch_all env st d).2 d
    (probeDomain env d) hlk
  refine ⟨?_, ?_, ?_, ?_, ?_⟩
  · rw [hstep2, hstep]
  · rw [hstep]
  · rw [hstep2]
  · exact fun st2 d2 e v hv => is_catch_all_preserves_lookup env st2 d2 e v hv
  · exact fun t st2 a e v hv =>
      check_email_preserves_lookup t env st2 a e v hv

/-- C4 witness: the theorem applied to a concrete oracle, the initial state
and a concrete domain, whose cache lookup is indeed empty. -/
theorem cache_idempotence_witness :
    List.lookup "example.com"
      (initState : CheckerState).cache = none ∧
    ((is_catch_all (oneMxEnv "example.com" "mx.example.com."
        (SMTPOutcome.code 250)) initState "example.com").1 =
      (is_catch_all (oneMxEnv "example.com" "mx.example.com."
        (SMTPOutcome.code 250))
        (is_catch_all (oneMxEnv "example.com" "mx.example.com."
          (SMTPOutcome.code 250)) initState "example.com").2
        "example.com").1 ∧
     (is_catch_all (oneMxEnv "example.com" "mx.example.com."
        (SMTPOutcome.code 250)) initState "example.com").2.probes =
       "example.com" :: (initState : CheckerState).probes ∧
     (is_catch_all (oneMxEnv "example.com" "mx.example.com."
        (SMTPOutcome.code 250))
        (is_catch_all (oneMxEnv "example.com" "mx.example.com."
          (SMTPOutcome.code 250)) initState "example.com").2
        "example.com").2 =
       (is_catch_all (oneMxEnv "example.com" "mx.example.com."
          (SMTPOutcome.code 250)) initState "example.com").2 ∧
     (∀ st2 d2 e v, List.lookup e st2.cache = some v →
       List.lookup e (is_catch_all (oneMxEnv "example.com" "mx.example.com."
         (SMTPOutcome.code 250)) st2 d2).2.cache = some v) ∧
     (∀ t st2 a e v, List.lookup e st2.cache = some v →
       List.lookup e (check_email t (oneMxEnv "example.com" "mx.example.com."
         (SMTPOutcome.code 250)) st2 a).2.cache = some v)) :=
  ⟨rfl, cache_idempotence (oneMxEnv "example.com" "mx.example.com."
    (SMTPOutcome.code 250)) initState "example.com" rfl⟩

/-- C5: for an address whose (lower-cased) domain has a resolvable mail
exchange and belongs to the disposable set — membership is the exact
(case-insensitive, because the domain is lower-cased first and the set is
lower-case) test of src line 91, with no subdomain wildcarding — the verdict
is `Do Not Send`/`Disposable` and the SMTP prober is never invoked: the SMTP
log, the probe-body log and the cache are all left untouched. -/
theorem disposable_short_circuit (t : List String) (env : NetEnv)
    (st : CheckerState) (e l dom : String)
    (hv : validate_email (cleanEmail e) = some (l, dom))
    (hmx : (env.mx (lowerString dom)).isSome = true)
    (hd : DISPOSABLE_DOMAINS.contains (lowerString dom) = true) :
    (check_email t env st e).1 =
      ⟨cleanEmail e, "Do Not Send", "Disposable"⟩ ∧
    (check_email t env st e).2.smtpProbes = st.smtpProbes ∧
    (check_email t env st e).2.probes = st.probes ∧
    (check_email t env st e).2.cache = st.cache := by
  rw [check_email_disposable t env st e l dom hv hmx hd]
  exact ⟨rfl, rfl, rfl, rfl⟩

/-- C5 witness: a mixed-case disposable address against a concrete oracle;
the lower-cased domain is in the disposable set and the verdict is
`Disposable` with no SMTP activity. -/
theorem disposable_short_circuit_witness :
    validate_email (cleanEmail "user@MAILINATOR.com") =
      some ("user", "MAILINATOR.com") ∧
    ((oneMxEnv "mailinator.com" "mx.mailinator.com."
      (SMTPOutcome.code 550)).mx (lowerString "MAILINATOR.com")).isSome =
      true ∧
    DISPOSABLE_DOMAINS.contains (lowerString "MAILINATOR.com") = true ∧
    ((check_email TYPO_DOMAINS (oneMxEnv "mailinator.com" "mx.mailinator.com."
        (SMTPOutcome.code 550)) initState "user@MAILINATOR.com").1 =
      ⟨cleanEmail "user@MAILINATOR.com", "Do Not Send", "Disposable"⟩ ∧
     (check_email TYPO_DOMAINS (oneMxEnv "mailinator.com" "mx.mailinator.com."
        (SMTPOutcome.code 550)) initState
        "user@MAILINATOR.com").2.smtpProbes =
       (initState : CheckerState).smtpProbes ∧
     (check_email TYPO_DOMAINS (oneMxEnv "mailinator.com" "mx.mailinator.com."
        (SMTPOutcome.code 550)) initState "user@MAILINATOR.com").2.probes =
       (initState : CheckerState).probes ∧
     (check_email TYPO_DOMAINS (oneMxEnv "mailinator.com" "mx.mailinator.com."
        (SMTPOutcome.code 550)) initState "user@MAILINATOR.com").2.cache =
       (initState : CheckerState).cache) :=
  ⟨by decide, by decide, by decide,
   disposable_short_circuit TYPO_DOMAINS
     (oneMxEnv "mailinator.com" "mx.mailinator.com." (SMTPOutcome.code 550))
     initState "user@MAILINATOR.com" "user" "MAILINATOR.com"
     (by decide) (by decide) (by decide)⟩

/-- C6: for a syntactically valid address whose domain has no resolvable mail
exchange (the MX query raises), the verdict is `Do Not Send`/`No MX` and the
SMTP prober is never invoked: the SMTP log, the probe-body log and the cache
are all left untouched. -/
theorem no_mx_short_circuit (t : List String) (env : NetEnv)
    (st : CheckerState) (e l dom : String)
    (hv : validate_email (cleanEmail e) = some (l, dom))
    (hmx : env.mx (lowerString dom) = none) :
    (check_email t env st e).1 =
      ⟨cleanEmail e, "Do Not Send", "No MX"⟩ ∧
    (check_email t env st e).2.smtpProbes = st.smtpProbes ∧
    (check_email t env st e).2.probes = st.probes ∧
    (check_email t env st e).2.cache = st.cache := by
  rw [check_email_no_mx t env st e l dom hv hmx]
  exact ⟨rfl, rfl, rfl, rfl⟩

/-- C6 witness: a valid address of a domain the concrete oracle cannot
resolve; the verdict is `No MX` with no SMTP activity. -/
theorem no_mx_short_circuit_witness :
    validate_email (cleanEmail "user@no-mx.test") =
      some ("user", "no-mx.test") ∧
    (oneMxEnv "example.com" "mx.example.com."
      (SMTPOutcome.code 550)).mx (lowerString "no-mx.test") = none ∧
    ((check_email TYPO_DOMAINS (oneMxEnv "example.com" "mx.example.com."
        (SMTPOutcome.code 550)) initState "user@no-mx.test").1 =
      ⟨cleanEmail "user@no-mx.test", "Do Not Send", "No MX"⟩ ∧
     (check_email TYPO_DOMAINS (oneMxEnv "example.com" "mx.example.com."
        (SMTPOutcome.code 550)) initState "user@no-mx.test").2.smtpProbes =
       (initState : CheckerState).smtpProbes ∧
     (check_email TYPO_DOMAINS (oneMxEnv "example.com" "mx.example.com."
        (SMTPOutcome.code 550)) initState "user@no-mx.test").2.probes =
       (initState : CheckerState).probes ∧
     (check_email TYPO_DOMAINS (oneMxEnv "example.com" "mx.example.com."
        (SMTPOutcome.code 550)) initState "user@no-mx.test").2.cache =
       (initState : CheckerState).cache) :=
  ⟨by decide, by decide,
   no_mx_short_circuit TYPO_DOMAINS
     (oneMxEnv "example.com" "mx.example.com." (SMTPOutcome.code 550))
     initState "user@no-mx.test" "user" "no-mx.test"
     (by decide) (by decide)⟩

/-- C7: for a syntactically invalid input — the cleaned string has no `@`,
an empty local part, or an empty domain part — the verdict is
`Do Not Send`/`Invalid Syntax` and the state is returned untouched: no MX
query is issued and the prober is never invoked. -/
theorem invalid_syntax_short_circuit (t : List String) (env : NetEnv)
    (st : CheckerState) (e : String)
    (h : ('@' ∉ (cleanEmail e).data) ∨
      (∃ d, splitOnChar '@' (cleanEmail e).data = [[], d]) ∨
      (∃ l, splitOnChar '@' (cleanEmail e).data = [l, []])) :
    check_email t env st e =
      (⟨cleanEmail e, "Do Not Send", "Invalid Syntax"⟩, st) :=
  check_email_invalid t env st e (validate_email_eq_none (cleanEmail e) h)

/-- C7 witness: the spec's end-to-end scenario 1 — the input
`"not-an-email"`, which contains no `@`, yields `Invalid Syntax` and leaves
the state (so the MX query log and probe logs) untouched. -/
theorem invalid_syntax_short_circuit_witness :
    ('@' ∉ (cleanEmail "not-an-email").data ∨
      (∃ d, splitOnChar '@' (cleanEmail "not-an-email").data = [[], d]) ∨
      (∃ l, splitOnChar '@' (cleanEmail "not-an-email").data = [l, []])) ∧
    check_email TYPO_DOMAINS (oneMxEnv "example.com" "mx.example.com."
        (SMTPOutcome.code 550)) initState "not-an-email" =
      (⟨cleanEmail "not-an-email", "Do Not Send", "Invalid Syntax"⟩,
       initState) :=
  ⟨Or.inl (by decide),
   invalid_syntax_short_circuit TYPO_DOMAINS
     (oneMxEnv "example.com" "mx.example.com." (SMTPOutcome.code 550))
     initState "not-an-email" (Or.inl (by decide))⟩

/-- C1 counterexample: with a resolvable domain whose server answers the rcpt
command with code 451 (neither 250 nor 550), the claim's asserted verdict
`Do Not Send`/`Catch-All` is false — the code classifies the probe `False`
and the final verdict is `Okay to Send`/`Accepted`. -/
theorem unknown_probe_cex :
    rcptCode (oneMxEnv "example.com" "mx.example.com."
      (SMTPOutcome.code 451)) "example.com" = some 451 ∧
    (check_email TYPO_DOMAINS (oneMxEnv "example.com" "mx.example.com."
        (SMTPOutcome.code 451)) initState "user@example.com").1 =
      ⟨"user@example.com", "Okay to Send", "Accepted"⟩ ∧
    (check_email TYPO_DOMAINS (oneMxEnv "example.com" "mx.example.com."
        (SMTPOutcome.code 451)) initState
        "user@example.com").1.validation_status ≠ "Do Not Send" := by
  decide

/-- C1 (amended): a rcpt response code other than 250 or 550, or any
exception during connect/handshake/command, makes the probe body return
`False` — the same value as a 550 rejection — so the final verdict for an
address of such a (resolvable, non-disposable) domain is
`Okay to Send`/`Accepted`: an unprobable domain is marked safe. -/
theorem unknown_probe_marked_safe (t : List String) (env : NetEnv)
    (st : CheckerState) (e l dom : String) (r : MXRecord) (rs : List MXRecord)
    (hc : Consistent env st)
    (hv : validate_email (cleanEmail e) = some (l, dom))
    (hmx : env.mx (lowerString dom) = some (r :: rs))
    (hd : DISPOSABLE_DOMAINS.contains (lowerString dom) = false)
    (hout : env.smtp (stripDots r.exchange) (lowerString dom) =
        SMTPOutcome.exc ∨
      ∃ c, env.smtp (stripDots r.exchange) (lowerString dom) =
        SMTPOutcome.code c ∧ c ≠ 250 ∧ c ≠ 550) :
    probeDomain env (lowerString dom) = ProbeVal.pyFalse ∧
    (check_email t env st e).1 =
      ⟨cleanEmail e, "Okay to Send", "Accepted"⟩ := by
  have hmxs : (env.mx (lowerString dom)).isSome = true := by rw [hmx]; rfl
  have hpf : probeDomain env (lowerString dom) = ProbeVal.pyFalse := by
    unfold probeDomain
    rw [hmx]
    rcases hout with hexc | ⟨c, hcode, h250, h550⟩
    · simp [hexc]
    · simp [hcode, h250, h550]
  refine ⟨hpf, ?_⟩
  rw [check_email_probe_path t env st e l dom hc hv hmxs hd, if_neg]
  rw [hpf]
  exact fun hh => ProbeVal.noConfusion hh

/-- C1 witness: the amended theorem applied to the code-451 oracle of the
counterexample, from the initial state. -/
theorem unknown_probe_marked_safe_witness :
    Consistent (oneMxEnv "example.com" "mx.example.com."
      (SMTPOutcome.code 451)) initState ∧
    validate_email (cleanEmail "user@example.com") =
      some ("user", "example.com") ∧
    (oneMxEnv "example.com" "mx.example.com." (SMTPOutcome.code 451)).mx
      (lowerString "example.com") =
      some (⟨10, "mx.example.com."⟩ :: []) ∧
    DISPOSABLE_DOMAINS.contains (lowerString "example.com") = false ∧
    ((oneMxEnv "example.com" "mx.example.com." (SMTPOutcome.code 451)).smtp
        (stripDots (⟨10, "mx.example.com."⟩ : MXRecord).exchange)
        (lowerString "example.com") = SMTPOutcome.exc ∨
      ∃ c, (oneMxEnv "example.com" "mx.example.com."
          (SMTPOutcome.code 451)).smtp
          (stripDots (⟨10, "mx.example.com."⟩ : MXRecord).exchange)
          (lowerString "example.com") = SMTPOutcome.code c ∧
        c ≠ 250 ∧ c ≠ 550) ∧
    (probeDomain (oneMxEnv "example.com" "mx.example.com."
        (SMTPOutcome.code 451)) (lowerString "example.com") =
      ProbeVal.pyFalse ∧
     (check_email TYPO_DOMAINS (oneMxEnv "example.com" "mx.example.com."
        (SMTPOutcome.code 451)) initState "user@example.com").1 =
      ⟨cleanEmail "user@example.com", "Okay to Send", "Accepted"⟩) :=
  ⟨consistent_initState _, by decide, by decide, by decide,
   Or.inr ⟨451, by decide, by decide, by decide⟩,
   unknown_probe_marked_safe TYPO_DOMAINS
     (oneMxEnv "example.com" "mx.example.com." (SMTPOutcome.code 451))
     initState "user@example.com" "user" "example.com"
     ⟨10, "mx.example.com."⟩ [] (consistent_initState _) (by decide)
     (by decide) (by decide)
     (Or.inr ⟨451, by decide, by decide, by decide⟩)⟩

/-- C2: for an address whose domain resolves to MX records and is not
disposable, a rcpt response code of 250 makes the probe body return `'maybe'`
(the catch-all classification) and the verdict `Do Not Send`/`Catch-All`,
while a response code of 550 makes the probe body return `False` (the
rejects classification) and the verdict `Okay to Send`/`Accepted`. -/
theorem probe_code_drives_verdict (t : List String) (env : NetEnv)
    (st : CheckerState) (e l dom : String) (r : MXRecord) (rs : List MXRecord)
    (hc : Consistent env st)
    (hv : validate_email (cleanEmail e) = some (l, dom))
    (hmx : env.mx (lowerString dom) = some (r :: rs))
    (hd : DISPOSABLE_DOMAINS.contains (lowerString dom) = false) :
    (env.smtp (stripDots r.exchange) (lowerString dom) =
        SMTPOutcome.code 250 →
      probeDomain env (lowerString dom) = ProbeVal.maybe ∧
      (check_email t env st e).1 =
        ⟨cleanEmail e, "Do Not Send", "Catch-All"⟩) ∧
    (env.smtp (stripDots r.exchange) (lowerString dom) =
        SMTPOutcome.code 550 →
      probeDomain env (lowerString dom) = ProbeVal.pyFalse ∧
      (check_email t env st e).1 =
        ⟨cleanEmail e, "Okay to Send", "Accepted"⟩) := by
  have hmxs : (env.mx (lowerString dom)).isSome = true := by rw [hmx]; rfl
  constructor
  · intro hs
    have hp : probeDomain env (lowerString dom) = ProbeVal.maybe := by
      unfold probeDomain
      rw [hmx]
      simp [hs]
    exact ⟨hp, by
      rw [check_email_probe_path t env st e l dom hc hv hmxs hd, if_pos hp]⟩
  · intro hs
    have hp : probeDomain env (lowerString dom) = ProbeVal.pyFalse := by
      unfold probeDomain
      rw [hmx]
      simp [hs]
    refine ⟨hp, ?_⟩
    rw [check_email_probe_path t env st e l dom hc hv hmxs hd, if_neg]
    rw [hp]
    exact fun hh => ProbeVal.noConfusion hh

/-- C2 witness: the theorem applied to a concrete code-250 oracle from the
initial state; the 250 implication fires and the 550 one is vacuous there. -/
theorem probe_code_drives_verdict_witness :
    Consistent (oneMxEnv "example.com" "mx.example.com."
      (SMTPOutcome.code 250)) initState ∧
    validate_email (cleanEmail "user@example.com") =
      some ("user", "example.com") ∧
    (oneMxEnv "example.com" "mx.example.com." (SMTPOutcome.code 250)).mx
      (lowerString "example.com") =
      some (⟨10, "mx.example.com."⟩ :: []) ∧
    DISPOSABLE_DOMAINS.contains (lowerString "example.com") = false ∧
    (((oneMxEnv "example.com" "mx.example.com." (SMTPOutcome.code 250)).smtp
        (stripDots (⟨10, "mx.example.com."⟩ : MXRecord).exchange)
        (lowerString "example.com") = SMTPOutcome.code 250 →
      probeDomain (oneMxEnv "example.com" "mx.example.com."
          (SMTPOutcome.code 250)) (lowerString "example.com") =
        ProbeVal.maybe ∧
      (check_email TYPO_DOMAINS (oneMxEnv "example.com" "mx.example.com."
          (SMTPOutcome.code 250)) initState "user@example.com").1 =
        ⟨cleanEmail "user@example.com", "Do Not Send", "Catch-All"⟩) ∧
     ((oneMxEnv "example.com" "mx.example.com." (SMTPOutcome.code 250)).smtp
        (stripDots (⟨10, "mx.example.com."⟩ : MXRecord).exchange)
        (lowerString "example.com") = SMTPOutcome.code 550 →
      probeDomain (oneMxEnv "example.com" "mx.example.com."
          (SMTPOutcome.code 250)) (lowerString "example.com") =
        ProbeVal.pyFalse ∧
      (check_email TYPO_DOMAINS (oneMxEnv "example.com" "mx.example.com."
          (SMTPOutcome.code 250)) initState "user@example.com").1 =
        ⟨cleanEmail "user@example.com", "Okay to Send", "Accepted"⟩)) :=
  ⟨consistent_initState _, by decide, by decide, by decide,
   probe_code_drives_verdict TYPO_DOMAINS
     (oneMxEnv "example.com" "mx.example.com." (SMTPOutcome.code 250))
     initState "user@example.com" "user" "example.com"
     ⟨10, "mx.example.com."⟩ [] (consistent_initState _) (by decide)
     (by decide) (by decide)⟩

/-- C3 counterexample: the resolver returns a preference-20 record first and
a preference-10 record second; the code contacts `slow.example` (the first
returned record) while the lowest-preference record is `fast.example`.
`fast.example` answers 550 (rejects), yet the probe classifies the domain
`'maybe'` because it spoke to `slow.example`, which answers 250 — so the
prober demonstrably does not contact the lowest-preference exchange. -/
theorem lowest_pref_cex :
    contactedServer envMixed "mixed.test" = some "slow.example" ∧
    specContactedServer envMixed "mixed.test" = some "fast.example" ∧
    contactedServer envMixed "mixed.test" ≠
      specContactedServer envMixed "mixed.test" ∧
    envMixed.smtp "fast.example" "mixed.test" = SMTPOutcome.code 550 ∧
    probeDomain envMixed "mixed.test" = ProbeVal.maybe := by
  decide

/-- C3 (amended): for every domain whose MX query returns records, the prober
contacts the exchange of the first record in resolver-returned order
(`mx_records[0]`, dots stripped), regardless of preference values. -/
theorem first_record_contacted (env : NetEnv) (d : String) (r : MXRecord)
    (rs : List MXRecord) (h : env.mx d = some (r :: rs)) :
    contactedServer env d = some (stripDots r.exchange) := by
  unfold contactedServer
  rw [h]

/-- C3 witness: the amended theorem applied to the two-record oracle of the
counterexample. -/
theorem first_record_contacted_witness :
    envMixed.mx "mixed.test" =
      some (⟨20, "slow.example."⟩ :: [⟨10, "fast.example."⟩]) ∧
    contactedServer envMixed "mixed.test" =
      some (stripDots (⟨20, "slow.example."⟩ : MXRecord).exchange) :=
  ⟨by decide,
   first_record_contacted envMixed "mixed.test" ⟨20, "slow.example."⟩
     [⟨10, "fast.example."⟩] (by decide)⟩

/-- Helper: the address recorded in the verdict is always the cleaned input
string, in every branch of `check_email`. -/
theorem check_email_email_field (t : List String) (env : NetEnv)
    (st : CheckerState) (e : String) :
    (check_email t env st e).1.email = cleanEmail e := by
  cases hval : validate_email (cleanEmail e) with
  | none => rw [check_email_invalid t env st e hval]
  | some p =>
    obtain ⟨l, dom⟩ := p
    cases hmx : env.mx (lowerString dom) with
    | none => rw [check_email_no_mx t env st e l dom hval hmx]
    | some recs =>
      have hmxs : (env.mx (lowerString dom)).isSome = true := by
        rw [hmx]; rfl
      by_cases hd : DISPOSABLE_DOMAINS.contains (lowerString dom) = true
      · rw [check_email_disposable t env st e l dom hval hmxs hd]
      · have hd2 : DISPOSABLE_DOMAINS.contains (lowerString dom) = false := by
          simpa using hd
        simp only [check_email, hval, has_mx_record, hmxs, hd2, Bool.not_true,
          Bool.false_eq_true, if_false, if_true]
        split
        · rfl
        · split <;> rfl

/-- Helper: removing the semicolons is idempotent. -/
theorem removeSemicolons_idem (s : String) :
    removeSemicolons (removeSemicolons s) = removeSemicolons s := by
  simp [removeSemicolons, List.filter_filter]

/-- Helper: cleaning is idempotent exactly on inputs whose cleaned form
carries no leading or trailing whitespace. -/
theorem cleanEmail_idem (e : String)
    (h : pyStrip (cleanEmail e) = cleanEmail e) :
    cleanEmail (cleanEmail e) = cleanEmail e :=
  calc cleanEmail (cleanEmail e)
      = removeSemicolons (pyStrip (cleanEmail e)) := rfl
    _ = removeSemicolons (cleanEmail e) := by rw [h]
    _ = removeSemicolons (removeSemicolons (pyStrip e)) := rfl
    _ = removeSemicolons (pyStrip e) := removeSemicolons_idem _
    _ = cleanEmail e := rfl

/-- C8 counterexample: for the raw input `";  user@example.com"`, stripping
happens before the semicolons are removed, so the cleaned form
`"  user@example.com"` keeps its leading spaces; the raw string's verdict is
`Invalid Syntax` while the cleaned form's verdict is `Accepted` — the verdict
for a raw string does not always equal the verdict for its cleaned form. -/
theorem clean_verdict_cex :
    cleanEmail ";  user@example.com" = "  user@example.com" ∧
    (check_email TYPO_DOMAINS (oneMxEnv "example.com" "mx.example.com."
        (SMTPOutcome.code 550)) initState ";  user@example.com").1 =
      ⟨"  user@example.com", "Do Not Send", "Invalid Syntax"⟩ ∧
    (check_email TYPO_DOMAINS (oneMxEnv "example.com" "mx.example.com."
        (SMTPOutcome.code 550)) initState
        (cleanEmail ";  user@example.com")).1 =
      ⟨"user@example.com", "Okay to Send", "Accepted"⟩ ∧
    (check_email TYPO_DOMAINS (oneMxEnv "example.com" "mx.example.com."
        (SMTPOutcome.code 550)) initState ";  user@example.com").1 ≠
      (check_email TYPO_DOMAINS (oneMxEnv "example.com" "mx.example.com."
          (SMTPOutcome.code 550)) initState
          (cleanEmail ";  user@example.com")).1 := by
  decide

/-- C8 (amended): the raw input is stripped of leading and trailing
whitespace and then all `;` characters are removed, the verdict is computed
from that cleaned string, and the address recorded in the verdict is the
cleaned string; the verdict for a raw string equals the verdict for its
cleaned form whenever the cleaned form carries no leading or trailing
whitespace (removing `;` after stripping can expose whitespace, on which
cleaning is not idempotent). -/
theorem clean_before_validate (t : List String) (env : NetEnv)
    (st : CheckerState) (e : String)
    (h : pyStrip (cleanEmail e) = cleanEmail e) :
    (check_email t env st e).1.email = cleanEmail e ∧
    check_email t env st e = check_email t env st (cleanEmail e) := by
  refine ⟨check_email_email_field t env st e, ?_⟩
  have hidem := cleanEmail_idem e h
  unfold check_email
  rw [hidem]

/-- C8 witness: an input whose cleaned form has no leading or trailing
whitespace; the recorded address is the cleaned string and the raw and
cleaned inputs receive the same verdict. -/
theorem clean_before_validate_witness :
    pyStrip (cleanEmail "  user@example.com  ") =
      cleanEmail "  user@example.com  " ∧
    ((check_email TYPO_DOMAINS (oneMxEnv "example.com" "mx.example.com."
        (SMTPOutcome.code 550)) initState "  user@example.com  ").1.email =
      cleanEmail "  user@example.com  " ∧
     check_email TYPO_DOMAINS (oneMxEnv "example.com" "mx.example.com."
        (SMTPOutcome.code 550)) initState "  user@example.com  " =
      check_email TYPO_DOMAINS (oneMxEnv "example.com" "mx.example.com."
        (SMTPOutcome.code 550)) initState
        (cleanEmail "  user@example.com  ")) :=
  ⟨by decide,
   clean_before_validate TYPO_DOMAINS
     (oneMxEnv "example.com" "mx.example.com." (SMTPOutcome.code 550))
     initState "  user@example.com  " (by decide)⟩

end EmailChecker
